import Mathlib

/-!
Verification of the libSQL vector store (`rig-libsql`): a shallow embedding of
`src/rig-libsql/src/lib.rs` — the search-filter compiler, the parameter
encoder, the where-clause builder, the ingestion path (`add_rows`) over an
explicit transaction-aware engine state, and the result-row decoding loop of
`top_n` — together with theorems settling the specification's claims.
-/

namespace RigLibsql

/-! ## JSON values (`serde_json::Value`)

`serde_json::Number` stores an `i64`, a `u64` or an `f64`.  Integer payloads
are modelled by `Int`; finite `f64` payloads are modelled by `ℚ` (the claims
never depend on rounding of doubles, only on which constructor is produced). -/

inductive JsonNum where
  | int (n : Int)
  | float (q : ℚ)
deriving Repr, DecidableEq

/-- `serde_json::Number::as_f64`: without the `arbitrary_precision` feature
this returns `Some` for every number (integers are cast to `f64`). -/
def JsonNum.as_f64 : JsonNum → Option ℚ
  | .int n => some (n : ℚ)
  | .float q => some q

/-- `serde_json::Number::as_i64`: `Some` only for (in-range) integer payloads;
`None` for float payloads. -/
def JsonNum.as_i64 : JsonNum → Option Int
  | .int n => some n
  | .float _ => none

inductive JsonValue where
  | null
  | bool (b : Bool)
  | num (n : JsonNum)
  | str (s : String)
  | arr (elems : List JsonValue)
  | obj (fields : List (String × JsonValue))
deriving Repr

/-! ## libSQL engine values (`libsql::Value`) -/

inductive LibsqlValue where
  | null
  | integer (n : Int)
  | real (q : ℚ)
  | text (s : String)
  | blob (bytes : List Nat)
deriving Repr, DecidableEq

/-- Modelled from the spec: rig-core's `FilterError` (its definition is not in
`src/`); the spec names a `Serialization` payload (used by the source) and an
`Unsupported` kind. -/
inductive FilterError where
  | serialization (msg : String)
  | unsupported (msg : String)
deriving Repr, DecidableEq

/-! ## JSON byte serialization (`serde_json::to_vec`)

The storage engine and serde are external collaborators; the byte format is
opaque to the claims.  We model `to_vec` as UTF-8 bytes of a standard JSON
rendering (object braces written with escapes below to keep strings plain). -/

def escapeJsonChar (c : Char) : String :=
  if c = '"' then "\\\""
  else if c = '\\' then "\\\\"
  else if c.toNat < 32 then "\\u00" ++ toString c.toNat
  else String.singleton c

def renderJsonString (s : String) : String :=
  "\"" ++ String.join (s.toList.map escapeJsonChar) ++ "\""

mutual

def renderJson : JsonValue → String
  | .null => "null"
  | .bool true => "true"
  | .bool false => "false"
  | .num (.int n) => toString n
  | .num (.float q) => toString q
  | .str s => renderJsonString s
  | .arr elems => "[" ++ renderJsonList elems ++ "]"
  | .obj fields => "\x7b" ++ renderJsonFields fields ++ "\x7d"

def renderJsonList : List JsonValue → String
  | [] => ""
  | [v] => renderJson v
  | v :: rest => renderJson v ++ "," ++ renderJsonList rest

def renderJsonFields : List (String × JsonValue) → String
  | [] => ""
  | [(k, v)] => renderJsonString k ++ ":" ++ renderJson v
  | (k, v) :: rest => renderJsonString k ++ ":" ++ renderJson v ++ "," ++ renderJsonFields rest

end

def jsonBytes (v : JsonValue) : List Nat :=
  (renderJson v).toUTF8.toList.map (fun b => b.toNat)

/-! ## The search filter (`LibsqlSearchFilter`) and its combinators -/

structure LibsqlSearchFilter where
  condition : String
  params : List JsonValue
deriving Repr

namespace LibsqlSearchFilter

/-- `SearchFilter::eq`: `format!("{key} = ?")`, params `vec![value]`. -/
def eq (key : String) (value : JsonValue) : LibsqlSearchFilter :=
  ⟨key ++ " = ?", [value]⟩

/-- `SearchFilter::gt`: `format!("{key} > ?")`, params `vec![value]`. -/
def gt (key : String) (value : JsonValue) : LibsqlSearchFilter :=
  ⟨key ++ " > ?", [value]⟩

/-- `SearchFilter::lt`: `format!("{key} < ?")`, params `vec![value]`. -/
def lt (key : String) (value : JsonValue) : LibsqlSearchFilter :=
  ⟨key ++ " < ?", [value]⟩

/-- `SearchFilter::and`: parenthesized conjunction, params concatenated
left-to-right. -/
def and (l r : LibsqlSearchFilter) : LibsqlSearchFilter :=
  ⟨"(" ++ l.condition ++ ") AND (" ++ r.condition ++ ")", l.params ++ r.params⟩

/-- `SearchFilter::or`: parenthesized disjunction, params concatenated
left-to-right. -/
def or (l r : LibsqlSearchFilter) : LibsqlSearchFilter :=
  ⟨"(" ++ l.condition ++ ") OR (" ++ r.condition ++ ")", l.params ++ r.params⟩

/-- `LibsqlSearchFilter::not`: wraps the condition, keeps the params
(`..self`). -/
def not (f : LibsqlSearchFilter) : LibsqlSearchFilter :=
  ⟨"NOT (" ++ f.condition ++ ")", f.params⟩

/-- `LibsqlSearchFilter::between`: the bounds' `Display` text is inlined into
the condition; `..Default::default()` leaves the params empty.  The generic
`N : Ord + Display` bounds are modelled by their display strings. -/
def between (key lo hi : String) : LibsqlSearchFilter :=
  ⟨key ++ " between " ++ lo ++ " and " ++ hi, []⟩

/-- `LibsqlSearchFilter::is_null`: zero params. -/
def is_null (key : String) : LibsqlSearchFilter :=
  ⟨key ++ " is null", []⟩

/-- `LibsqlSearchFilter::is_not_null`: zero params. -/
def is_not_null (key : String) : LibsqlSearchFilter :=
  ⟨key ++ " is not null", []⟩

/-- `LibsqlSearchFilter::glob`: `format!("{key} glob {}", pattern.as_ref())` —
the pattern text is interpolated into the condition; params stay empty. -/
def glob (key pattern : String) : LibsqlSearchFilter :=
  ⟨key ++ " glob " ++ pattern, []⟩

/-- `LibsqlSearchFilter::like`: `format!("{key} like {}", pattern.as_ref())` —
the pattern text is interpolated into the condition; params stay empty. -/
def like (key pattern : String) : LibsqlSearchFilter :=
  ⟨key ++ " like " ++ pattern, []⟩

end LibsqlSearchFilter

/-! ## Parameter compilation (`compile_params` and its inner `convert`) -/

/-- The inner `convert` of `LibsqlSearchFilter::compile_params`.  Note the
source tests `as_f64` FIRST; the `as_i64` branch and the final
`unreachable!()` are dead because `as_f64` succeeds on every number. -/
def convert : JsonValue → Except FilterError LibsqlValue
  | .null => .ok .null
  | .bool b => .ok (.integer (if b then 1 else 0))
  | .str s => .ok (.text s)
  | .num n =>
    match n.as_f64 with
    | some q => .ok (.real q)
    | none =>
      match n.as_i64 with
      | some i => .ok (.integer i)
      | none => .error (.serialization "unreachable")
  | .arr elems => .ok (.blob (jsonBytes (.arr elems)))
  | .obj fields => .ok (.blob (jsonBytes (.obj fields)))

/-- The loop of `compile_params`: converts each param in order, pushing the
results, propagating the first error. -/
def convertAll : List JsonValue → Except FilterError (List LibsqlValue)
  | [] => .ok []
  | v :: rest => do
    let lv ← convert v
    let tl ← convertAll rest
    return lv :: tl

/-- `LibsqlSearchFilter::compile_params`. -/
def LibsqlSearchFilter.compile_params (f : LibsqlSearchFilter) :
    Except FilterError (List LibsqlValue) :=
  convertAll f.params

/-! ## Filter expressions: the combinator language of the claims

A `FilterExpr` is a tree of constructor applications of the public
combinators; `compile` folds it through the source combinators above. -/

inductive FilterExpr where
  | eq (key : String) (value : JsonValue)
  | gt (key : String) (value : JsonValue)
  | lt (key : String) (value : JsonValue)
  | between (key lo hi : String)
  | isNull (key : String)
  | isNotNull (key : String)
  | like (key pattern : String)
  | glob (key pattern : String)
  | and (l r : FilterExpr)
  | or (l r : FilterExpr)
  | not (f : FilterExpr)

def FilterExpr.compile : FilterExpr → LibsqlSearchFilter
  | .eq k v => LibsqlSearchFilter.eq k v
  | .gt k v => LibsqlSearchFilter.gt k v
  | .lt k v => LibsqlSearchFilter.lt k v
  | .between k lo hi => LibsqlSearchFilter.between k lo hi
  | .isNull k => LibsqlSearchFilter.is_null k
  | .isNotNull k => LibsqlSearchFilter.is_not_null k
  | .like k p => LibsqlSearchFilter.like k p
  | .glob k p => LibsqlSearchFilter.glob k p
  | .and l r => LibsqlSearchFilter.and l.compile r.compile
  | .or l r => LibsqlSearchFilter.or l.compile r.compile
  | .not f => LibsqlSearchFilter.not f.compile

/-- Number of positional placeholders (`?` characters) in a condition. -/
def placeholderCount (s : String) : Nat :=
  s.toList.count '?'

/-- A string free of the positional-placeholder character. -/
def qMarkFree (s : String) : Prop :=
  '?' ∉ s.toList

instance (s : String) : Decidable (qMarkFree s) := by
  unfold qMarkFree
  infer_instance

/-- All key, pattern and bound strings of a filter expression are free of
`?`.  (Leaf values never reach the condition text, so they are unrestricted.) -/
def FilterExpr.inputsQMarkFree : FilterExpr → Prop
  | .eq k _ => qMarkFree k
  | .gt k _ => qMarkFree k
  | .lt k _ => qMarkFree k
  | .between k lo hi => qMarkFree k ∧ qMarkFree lo ∧ qMarkFree hi
  | .isNull k => qMarkFree k
  | .isNotNull k => qMarkFree k
  | .like k p => qMarkFree k ∧ qMarkFree p
  | .glob k p => qMarkFree k ∧ qMarkFree p
  | .and l r => l.inputsQMarkFree ∧ r.inputsQMarkFree
  | .or l r => l.inputsQMarkFree ∧ r.inputsQMarkFree
  | .not f => f.inputsQMarkFree

/-! ## Embeddings and their serialization

`rig::embeddings::Embedding` carries a document string and a `Vec<f64>`.
IEEE doubles are not kernel-tractable; components are carried as an opaque
payload type `α`, and Rust's `x as f32` narrowing is an explicit parameter
`narrow : α → Nat` producing the 32-bit pattern of the resulting float
(reduced `% 2 ^ 32` to reflect the 32-bit target type `Vec<f32>`).  Every
theorem below holds for every narrowing function, in particular the IEEE one. -/

structure Embedding (α : Type) where
  document : String
  vec : List α

/-- `serialize_embedding`: `embedding.vec.iter().map(|x| *x as f32).collect()`
— one narrowed 32-bit component per input component. -/
def serialize_embedding {α : Type} (narrow : α → Nat) (e : Embedding α) : List Nat :=
  e.vec.map (fun x => narrow x % 2 ^ 32)

/-- The four little-endian bytes of a 32-bit word (`f32::to_le_bytes`). -/
def leBytes4 (w : Nat) : List Nat :=
  [w % 256, w / 2 ^ 8 % 256, w / 2 ^ 16 % 256, w / 2 ^ 24 % 256]

/-- Ingestion blob (`add_rows`): `vec.as_bytes().to_vec()` over the
`Vec<f32>` from `serialize_embedding` — 4 bytes per component, little-endian
on the (little-endian) target. -/
def ingestBlob {α : Type} (narrow : α → Nat) (e : Embedding α) : List Nat :=
  (serialize_embedding narrow e).flatMap leBytes4

/-- Query-side blob (`build_where_clause`):
`query_vec.into_iter().flat_map(f32::to_le_bytes).collect()`. -/
def queryBlobOfVec (queryVec : List Nat) : List Nat :=
  queryVec.flatMap leBytes4

/-! ## Search requests and the where-clause builder -/

/-- Modelled from the spec: rig-core's `VectorSearchRequest` (its definition
is not in `src/`) — `{query_text, sample_count, optional distance_threshold,
optional filter}` with the accessors `query`/`samples`/`threshold`/`filter`
used by the source.  `samples` is a `u64` (here `Nat`), `threshold` an `f64`
(here `ℚ`). -/
structure VectorSearchRequest where
  query : String
  samples : Nat
  threshold : Option ℚ
  filter : Option LibsqlSearchFilter

/-- `build_where_clause`: threshold filter `e.distance > ?` (threshold
defaulting to 0), conjoined on the left of the request filter when present;
prefix params are the query-vector blob and `samples as u32 as i64`. -/
def build_where_clause (req : VectorSearchRequest) (queryVec : List Nat) :
    Except FilterError (String × List LibsqlValue) := do
  let th : ℚ := req.threshold.getD 0
  let thresh := LibsqlSearchFilter.gt "e.distance" (.num (.float th))
  let filter :=
    match req.filter with
    | some f => thresh.and f
    | none => thresh
  let whereClause := "WHERE e.embedding MATCH ? AND k = ? AND " ++ filter.condition
  let queryBlob := LibsqlValue.blob (queryBlobOfVec queryVec)
  let samples := LibsqlValue.integer (Int.ofNat (req.samples % 2 ^ 32))
  let filterParams ← filter.compile_params
  return (whereClause, queryBlob :: samples :: filterParams)

/-! ## `top_n`: effect trace and result-row decoding

`top_n` embeds the query text (an I/O suspension), builds the where clause,
issues one SQL query, then folds over the cursor.  The I/O steps are
reified as an effect trace; the cursor fold is the pure function
`top_n_decode` below. -/

inductive QueryEffect where
  | embedText (text : String)
  | sqlQuery (sql : String) (params : List LibsqlValue)
deriving Repr, DecidableEq

/-- The `SELECT` text of `top_n` (whitespace normalized to single spaces). -/
def topNSql (tableName : String) (columnNames : List String) (whereClause : String) : String :=
  "SELECT d." ++ String.intercalate ", " columnNames ++ ", e.distance FROM " ++
    tableName ++ "_embeddings e JOIN " ++ tableName ++ " d ON e.rowid = d.rowid " ++
    whereClause ++ " ORDER BY e.distance"

/-- The I/O effects `top_n` performs before reading the cursor, in order,
paired with the filter-compilation outcome: the embedding call always comes
first; the SQL query is issued unless `build_where_clause` failed. -/
def top_n_trace (tableName : String) (columnNames : List String)
    (req : VectorSearchRequest) (queryVec : List Nat) :
    List QueryEffect × Option FilterError :=
  match build_where_clause req queryVec with
  | .error e => ([QueryEffect.embedText req.query], some e)
  | .ok (whereClause, params) =>
    ([QueryEffect.embedText req.query,
      QueryEffect.sqlQuery (topNSql tableName columnNames whereClause) params], none)

/-- One cursor row of the `top_n` query: the projected document columns
(extracted as `String` by `row.get(i)`) and the computed distance. -/
structure SqlRow where
  cols : List String
  distance : ℚ
deriving Repr

/-- `row.get::<String>(i)` for each projected column, paired with its column
name — the map handed to `serde_json::from_value`.  `none` models a `get`
error (fatal `DatastoreError` in the source). -/
def getColumnsFrom (cols : List String) : Nat → List String → Option (List (String × String))
  | _, [] => some []
  | i, name :: rest => do
    let value ← cols.get? i
    let tl ← getColumnsFrom cols (i + 1) rest
    return (name, value) :: tl

def getColumns (columnNames : List String) (cols : List String) :
    Option (List (String × String)) :=
  getColumnsFrom cols 0 columnNames

/-- Decoding of a single cursor row in `top_n`'s loop: build the column map,
read the distance and the id (`row.get(0)`), then attempt deserialization;
`.ok none` is a skipped row (deserialization failure), `.error` a fatal
`DatastoreError` from a failed `get`. -/
def decodeRow {D : Type} (decode : List (String × String) → Option D)
    (columnNames : List String) (r : SqlRow) :
    Except String (Option (ℚ × String × D)) :=
  match getColumns columnNames r.cols with
  | none => .error "DatastoreError"
  | some map =>
    match r.cols.get? 0 with
    | none => .error "DatastoreError"
    | some idValue =>
      match decode map with
      | some doc => .ok (some (r.distance, idValue, doc))
      | none => .ok none

/-- The cursor fold of `top_n`: rows failing deserialization are skipped
(`continue`), every other failure aborts the query. -/
def top_n_decode {D : Type} (decode : List (String × String) → Option D)
    (columnNames : List String) : List SqlRow → Except String (List (ℚ × String × D))
  | [] => .ok []
  | r :: rest => do
    let hd ← decodeRow decode columnNames r
    let tl ← top_n_decode decode columnNames rest
    match hd with
    | some t => return t :: tl
    | none => return tl

/-! ## The storage engine state and `add_rows`

The engine (libSQL/SQLite, an external collaborator) is modelled by the
committed contents of the document table and the embedding table plus an
optional open transaction holding the connection's working copy.  Statements
issued inside an open transaction act on the working copy; statements on the
same connection — including the store's own queries — see the working copy
(`visible`), while other connections see only `committed`.  `BEGIN` fails if
a transaction is already open ("cannot start a transaction within a
transaction"); `COMMIT` fails if none is open. -/

/-- A document-table row: the column bindings of one upsert, in
`column_values()` order (every bound parameter is a `to_sql_string()` text). -/
abbrev DocRow : Type := List (String × String)

structure TableData where
  docRows : List DocRow
  embRows : List (Int × List Nat)
deriving Repr, DecidableEq

structure DBState where
  committed : TableData
  txn : Option TableData
  lastRowid : Int
deriving Repr, DecidableEq

/-- What the store's own connection sees: the open transaction's working
copy when one exists, the committed state otherwise. -/
def DBState.visible (s : DBState) : TableData :=
  s.txn.getD s.committed

def DBState.withWorking (s : DBState) (t : TableData) : DBState :=
  match s.txn with
  | some _ => { s with txn := some t }
  | none => { s with committed := t }

/-- `BEGIN`: errors when a transaction is already open. -/
def beginTxn (s : DBState) : Except String DBState :=
  match s.txn with
  | some _ => .error "cannot start a transaction within a transaction"
  | none => .ok { s with txn := some s.committed }

/-- `COMMIT`: publishes the working copy; errors when no transaction is open. -/
def commitTxn (s : DBState) : Except String DBState :=
  match s.txn with
  | none => .error "cannot commit - no transaction is active"
  | some t => .ok { committed := t, txn := none, lastRowid := s.lastRowid }

/-- The row's binding of the `id` column, if any. -/
def rowIdValue (r : DocRow) : Option String :=
  List.lookup "id" r

/-- Row-level effect of `INSERT OR REPLACE`: when the schema declares a
uniqueness constraint on the `id` column (`uniqueId`), conflicting rows are
deleted and the new row inserted; without such a constraint nothing
conflicts and a duplicate row is appended. -/
def upsertRows (uniqueId : Bool) (rows : List DocRow) (r : DocRow) : List DocRow :=
  (if uniqueId then rows.filter (fun old => !(rowIdValue old == rowIdValue r)) else rows) ++ [r]

/-- `INSERT OR REPLACE` into the document table; the engine assigns a fresh
physical rowid. -/
def insertOrReplaceDoc (uniqueId : Bool) (s : DBState) (r : DocRow) : DBState :=
  let t := s.visible
  let s := s.withWorking { t with docRows := upsertRows uniqueId t.docRows r }
  { s with lastRowid := s.lastRowid + 1 }

/-- `INSERT INTO {t}_embeddings (rowid, embedding) VALUES (?1, ?2)`. -/
def insertEmbRow (s : DBState) (rowid : Int) (blob : List Nat) : DBState :=
  let t := s.visible
  s.withWorking { t with embRows := t.embRows ++ [(rowid, blob)] }

/-- One record of an ingestion batch: its logical id, its
`column_values()` bindings, and its serialized embedding blobs. -/
structure IngestDoc where
  id : String
  columnValues : List (String × String)
  embBlobs : List (List Nat)
deriving Repr, DecidableEq

/-- The per-document body of `add_rows`' loop: upsert the document row, read
`last_insert_rowid()`, insert one embedding row per blob.  `failDocInsert i`
injects an engine failure on the `i`-th document's `INSERT OR REPLACE`; on
failure the loop propagates the error immediately (the source's `?`),
leaving the transaction open.  Returns the updated state and `last_id`. -/
def add_rows_loop (uniqueId : Bool) (failDocInsert : Nat → Bool) :
    Nat → Int → List IngestDoc → DBState → DBState × Except String Int
  | _, lastId, [], s => (s, .ok lastId)
  | i, _, doc :: rest, s =>
    if failDocInsert i then
      (s, .error "DatastoreError")
    else
      let s := insertOrReplaceDoc uniqueId s doc.columnValues
      let lastId := s.lastRowid
      let s := doc.embBlobs.foldl (fun acc blob => insertEmbRow acc lastId blob) s
      add_rows_loop uniqueId failDocInsert (i + 1) lastId rest s

/-- `add_rows`: `BEGIN`, loop over the batch, `COMMIT`.  No `ROLLBACK` is
issued on any path: an error inside the loop returns with the transaction
still open. -/
def add_rows (uniqueId : Bool) (failDocInsert : Nat → Bool)
    (documents : List IngestDoc) (s0 : DBState) : DBState × Except String Int :=
  match beginTxn s0 with
  | .error e => (s0, .error e)
  | .ok s1 =>
    match add_rows_loop uniqueId failDocInsert 0 0 documents s1 with
    | (s2, .error e) => (s2, .error e)
    | (s2, .ok lastId) =>
      match commitTxn s2 with
      | .error e => (s2, .error e)
      | .ok s3 => (s3, .ok lastId)

/-! ## Record schemas and the id-uniqueness constraint -/

structure Column where
  name : String
  colType : String
  indexed : Bool
deriving Repr, DecidableEq

/-- Whether a declared column type carries a uniqueness constraint the engine
will enforce (`... PRIMARY KEY ...` or `... UNIQUE ...` in the opaque type
text, e.g. `"TEXT PRIMARY KEY"`). -/
def declaresUnique (colType : String) : Bool :=
  decide (List.IsInfix "PRIMARY KEY".toList colType.toList) ||
    decide (List.IsInfix "UNIQUE".toList colType.toList)

/-- Whether a record type's schema constrains its `id` column to be unique —
the condition under which `INSERT OR REPLACE` replaces instead of
duplicating. -/
def schemaHasUniqueId (schema : List Column) : Bool :=
  schema.any (fun c => c.name == "id" && declaresUnique c.colType)

/-- The document-table rows whose `id` column is bound to `x`. -/
def rowsWithId (x : String) (rows : List DocRow) : List DocRow :=
  rows.filter (fun r => rowIdValue r == some x)

/-! ## Helper lemmas -/

theorem placeholderCount_append (s t : String) :
    placeholderCount (s ++ t) = placeholderCount s + placeholderCount t := by
  simp [placeholderCount, String.toList, String.append, List.count_append]

theorem placeholderCount_of_qMarkFree {s : String} (h : qMarkFree s) :
    placeholderCount s = 0 := by
  simpa [placeholderCount] using List.count_eq_zero.mpr h

/-- `convert` never fails: the six JSON kinds are exhaustive, `as_f64`
succeeds on every number, and the byte serialization is total. -/
theorem convert_ok (v : JsonValue) : ∃ lv, convert v = .ok lv := by
  cases v with
  | null => exact ⟨_, rfl⟩
  | bool b => exact ⟨_, rfl⟩
  | str s => exact ⟨_, rfl⟩
  | num n => cases n <;> exact ⟨_, rfl⟩
  | arr elems => exact ⟨_, rfl⟩
  | obj fields => exact ⟨_, rfl⟩

theorem convertAll_ok (params : List JsonValue) :
    ∃ ps, convertAll params = .ok ps ∧ ps.length = params.length := by
  induction params with
  | nil => exact ⟨[], rfl, rfl⟩
  | cons v rest ih =>
    obtain ⟨lv, hlv⟩ := convert_ok v
    obtain ⟨ps, hps, hlen⟩ := ih
    refine ⟨lv :: ps, ?_, by simp [hlen]⟩
    simp [convertAll, hlv, hps]
    rfl

/-- `compile_params` never fails and is length-preserving. -/
theorem compile_params_ok (f : LibsqlSearchFilter) :
    ∃ ps, f.compile_params = .ok ps ∧ ps.length = f.params.length :=
  convertAll_ok f.params

theorem placeholderCount_literals :
    placeholderCount "(" = 0 ∧ placeholderCount ")" = 0
    ∧ placeholderCount ") AND (" = 0 ∧ placeholderCount ") OR (" = 0
    ∧ placeholderCount "NOT (" = 0
    ∧ placeholderCount " = ?" = 1 ∧ placeholderCount " > ?" = 1
    ∧ placeholderCount " < ?" = 1
    ∧ placeholderCount " between " = 0 ∧ placeholderCount " and " = 0
    ∧ placeholderCount " is null" = 0 ∧ placeholderCount " is not null" = 0
    ∧ placeholderCount " like " = 0 ∧ placeholderCount " glob " = 0 := by
  decide

/-! ## Claims C2, C3: placeholder bookkeeping of the filter compiler -/

/-- C2 (counterexample): the claim fails as stated — `Glob` interpolates the
pattern into the condition text, so the natural SQLite glob pattern `doc?`
puts a `?` in the condition (1 placeholder) while the parameter list stays
empty. -/
theorem c2_placeholder_mismatch :
    ¬ placeholderCount (FilterExpr.glob "content" "doc?").compile.condition
        = (FilterExpr.glob "content" "doc?").compile.params.length := by
  decide

/-- C2 (amended): for every filter built from the combinators whose keys,
`Like`/`Glob` patterns and `Between` bound texts are free of the `?`
character, the compiled condition has exactly as many `?` placeholders as
the parameter list has entries; and `And`/`Or` unconditionally produce the
parenthesized concatenation of the conditions and the left-to-right
concatenation of the parameter lists. -/
theorem c2_placeholder_alignment (e : FilterExpr) (h : e.inputsQMarkFree) :
    placeholderCount e.compile.condition = e.compile.params.length
    ∧ ∀ l r : FilterExpr,
      ((FilterExpr.and l r).compile.condition
          = "(" ++ l.compile.condition ++ ") AND (" ++ r.compile.condition ++ ")"
        ∧ (FilterExpr.and l r).compile.params = l.compile.params ++ r.compile.params)
      ∧ ((FilterExpr.or l r).compile.condition
          = "(" ++ l.compile.condition ++ ") OR (" ++ r.compile.condition ++ ")"
        ∧ (FilterExpr.or l r).compile.params = l.compile.params ++ r.compile.params) := by
  refine ⟨?_, fun l r => ⟨⟨rfl, rfl⟩, ⟨rfl, rfl⟩⟩⟩
  obtain ⟨hc1, hc2, hc3, hc4, hc5, hc6, hc7, hc8, hc9, hc10, hc11, hc12, hc13, hc14⟩ :=
    placeholderCount_literals
  induction e with
  | eq k v =>
    simp [FilterExpr.compile, LibsqlSearchFilter.eq, placeholderCount_append,
      placeholderCount_of_qMarkFree h, hc6]
  | gt k v =>
    simp [FilterExpr.compile, LibsqlSearchFilter.gt, placeholderCount_append,
      placeholderCount_of_qMarkFree h, hc7]
  | lt k v =>
    simp [FilterExpr.compile, LibsqlSearchFilter.lt, placeholderCount_append,
      placeholderCount_of_qMarkFree h, hc8]
  | between k lo hi =>
    obtain ⟨hk, hlo, hhi⟩ := h
    simp [FilterExpr.compile, LibsqlSearchFilter.between, placeholderCount_append,
      placeholderCount_of_qMarkFree hk, placeholderCount_of_qMarkFree hlo,
      placeholderCount_of_qMarkFree hhi, hc9, hc10]
  | isNull k =>
    simp [FilterExpr.compile, LibsqlSearchFilter.is_null, placeholderCount_append,
      placeholderCount_of_qMarkFree h, hc11]
  | isNotNull k =>
    simp [FilterExpr.compile, LibsqlSearchFilter.is_not_null, placeholderCount_append,
      placeholderCount_of_qMarkFree h, hc12]
  | like k p =>
    obtain ⟨hk, hp⟩ := h
    simp [FilterExpr.compile, LibsqlSearchFilter.like, placeholderCount_append,
      placeholderCount_of_qMarkFree hk, placeholderCount_of_qMarkFree hp, hc13]
  | glob k p =>
    obtain ⟨hk, hp⟩ := h
    simp [FilterExpr.compile, LibsqlSearchFilter.glob, placeholderCount_append,
      placeholderCount_of_qMarkFree hk, placeholderCount_of_qMarkFree hp, hc14]
  | and l r ihl ihr =>
    obtain ⟨hl, hr⟩ := h
    simp [FilterExpr.compile, LibsqlSearchFilter.and, placeholderCount_append,
      ihl hl, ihr hr, hc1, hc2, hc3]
  | or l r ihl ihr =>
    obtain ⟨hl, hr⟩ := h
    simp [FilterExpr.compile, LibsqlSearchFilter.or, placeholderCount_append,
      ihl hl, ihr hr, hc1, hc2, hc4]
  | not f ih =>
    simp [FilterExpr.compile, LibsqlSearchFilter.not, placeholderCount_append,
      ih h, hc2, hc5]

/-- C2 (witness): the amended invariant evaluated on a concrete composed
filter with `?`-free inputs. -/
theorem c2_placeholder_alignment_witness :
    placeholderCount (FilterExpr.and (FilterExpr.eq "kind" (.str "a"))
        (FilterExpr.not (FilterExpr.like "content" "ex%"))).compile.condition
      = (FilterExpr.and (FilterExpr.eq "kind" (.str "a"))
        (FilterExpr.not (FilterExpr.like "content" "ex%"))).compile.params.length :=
  (c2_placeholder_alignment
    (FilterExpr.and (FilterExpr.eq "kind" (.str "a"))
      (FilterExpr.not (FilterExpr.like "content" "ex%")))
    ⟨(by decide : qMarkFree "kind"), (by decide : qMarkFree "content"),
      (by decide : qMarkFree "ex%")⟩).1

/-- C3 (counterexample): `like` does not bind the pattern as a parameter —
at key `content` and pattern `ex%` the condition carries no placeholder and
the parameter list is empty, refuting the claimed single placeholder with
the pattern as sole parameter. -/
theorem c3_like_not_parameterized :
    ¬ (placeholderCount (LibsqlSearchFilter.like "content" "ex%").condition = 1
       ∧ (LibsqlSearchFilter.like "content" "ex%").params = [JsonValue.str "ex%"]) := by
  intro h
  exact absurd h.1 (by decide)

/-- C3 (amended): `Like` and `Glob` interpolate the pattern text directly
into the condition (adding no placeholder beyond any `?` already present in
the key or pattern) and produce an empty parameter list; `IsNull` and
`IsNotNull` produce empty parameter lists, as claimed. -/
theorem c3_pattern_interpolated (key pattern : String) :
    (LibsqlSearchFilter.like key pattern).condition = key ++ " like " ++ pattern
    ∧ (LibsqlSearchFilter.like key pattern).params = []
    ∧ placeholderCount (LibsqlSearchFilter.like key pattern).condition
        = placeholderCount key + placeholderCount pattern
    ∧ (LibsqlSearchFilter.glob key pattern).condition = key ++ " glob " ++ pattern
    ∧ (LibsqlSearchFilter.glob key pattern).params = []
    ∧ placeholderCount (LibsqlSearchFilter.glob key pattern).condition
        = placeholderCount key + placeholderCount pattern
    ∧ (LibsqlSearchFilter.is_null key).params = []
    ∧ (LibsqlSearchFilter.is_not_null key).params = [] := by
  refine ⟨rfl, rfl, ?_, rfl, rfl, ?_, rfl, rfl⟩
  · simp [LibsqlSearchFilter.like, placeholderCount_append]
    decide
  · simp [LibsqlSearchFilter.glob, placeholderCount_append]
    decide

/-! ## Claim C7: parameter value encoding -/

/-- C7 (counterexample): the integer 5 is encoded as the real literal 5.0,
not as an integer literal — `as_f64` is tested first and succeeds on every
number. -/
theorem c7_integer_encoded_as_real :
    convert (JsonValue.num (JsonNum.int 5)) = .ok (LibsqlValue.real 5)
    ∧ ¬ convert (JsonValue.num (JsonNum.int 5)) = .ok (LibsqlValue.integer 5) := by
  refine ⟨rfl, fun h => ?_⟩
  exact LibsqlValue.noConfusion (Except.ok.inj h)

/-- C7 (amended): null maps to the engine null, booleans to the integers
0/1, strings to text literals, arrays and objects to serialized byte blobs —
but every numeric value, integer or floating point, maps to a real literal
(the `as_f64` branch is tested first and always succeeds, so the integer
branch is dead), and no value kind fails at all (in particular never with
`FilterError::Unsupported`), the six JSON kinds being exhaustive. -/
theorem c7_value_encoding :
    convert .null = .ok .null
    ∧ (∀ b, convert (.bool b) = .ok (.integer (if b then 1 else 0)))
    ∧ (∀ s, convert (.str s) = .ok (.text s))
    ∧ (∀ n : Int, convert (.num (.int n)) = .ok (.real (n : ℚ)))
    ∧ (∀ q : ℚ, convert (.num (.float q)) = .ok (.real q))
    ∧ (∀ elems, convert (.arr elems) = .ok (.blob (jsonBytes (.arr elems))))
    ∧ (∀ fields, convert (.obj fields) = .ok (.blob (jsonBytes (.obj fields))))
    ∧ (∀ v, ∃ lv, convert v = .ok lv) := by
  exact ⟨rfl, fun b => rfl, fun s => rfl, fun n => rfl, fun q => rfl,
    fun elems => rfl, fun fields => rfl, convert_ok⟩

/-! ## Claim C5: where-clause construction -/

/-- Characterization of `build_where_clause`, shared by the claims about the
query pipeline. -/
theorem build_where_clause_shape (req : VectorSearchRequest) (queryVec : List Nat) :
    ∃ rest,
      build_where_clause req queryVec =
        .ok ("WHERE e.embedding MATCH ? AND k = ? AND " ++
              (match req.filter with
               | some f => "(e.distance > ?) AND (" ++ f.condition ++ ")"
               | none => "e.distance > ?"),
             LibsqlValue.blob (queryBlobOfVec queryVec) ::
               LibsqlValue.integer (Int.ofNat (req.samples % 2 ^ 32)) ::
               LibsqlValue.real (req.threshold.getD 0) :: rest)
      ∧ (match req.filter with
         | some f => rest.length = f.params.length
         | none => rest = []) := by
  cases hf : req.filter with
  | none =>
    refine ⟨[], ?_, rfl⟩
    simp [build_where_clause, hf, LibsqlSearchFilter.gt,
      LibsqlSearchFilter.compile_params, convertAll, convert, JsonNum.as_f64]
    rfl
  | some f =>
    obtain ⟨ps, hps, hlen⟩ := convertAll_ok f.params
    refine ⟨ps, ?_, hlen⟩
    simp [build_where_clause, hf, LibsqlSearchFilter.gt, LibsqlSearchFilter.and,
      LibsqlSearchFilter.compile_params, convertAll, convert, JsonNum.as_f64, hps]
    rfl

/-- C5: the where-condition is `WHERE e.embedding MATCH ? AND k = ?` followed
by the base filter `e.distance > ?` — conjoined on the left of the request's
filter when one is present, alone otherwise — and the bound parameters are
the query-vector blob, the sample count, then the threshold (the request's
`distance_threshold` when set, 0 when unset) followed by the request
filter's own parameters in order. -/
theorem c5_where_clause_shape (req : VectorSearchRequest) (queryVec : List Nat) :
    ∃ rest,
      build_where_clause req queryVec =
        .ok ("WHERE e.embedding MATCH ? AND k = ? AND " ++
              (match req.filter with
               | some f => "(e.distance > ?) AND (" ++ f.condition ++ ")"
               | none => "e.distance > ?"),
             LibsqlValue.blob (queryBlobOfVec queryVec) ::
               LibsqlValue.integer (Int.ofNat (req.samples % 2 ^ 32)) ::
               LibsqlValue.real (req.threshold.getD 0) :: rest)
      ∧ (match req.filter with
         | some f => rest.length = f.params.length
         | none => rest = []) :=
  build_where_clause_shape req queryVec

/-! ## Claim C4: behavior on a zero sample count -/

/-- C4 (counterexample): at a request with `sample_count = 0`, `top_n` does
not fail fast — its effect trace begins with the embedding call (I/O),
continues with the SQL query binding `k = 0` (second parameter), and
produces no error at all, refuting the claimed `InvalidRequest` before any
I/O. -/
theorem c4_zero_samples_proceeds :
    top_n_trace "documents" ["id", "content"]
        { query := "q", samples := 0, threshold := none, filter := none } [] =
      ([QueryEffect.embedText "q",
        QueryEffect.sqlQuery
          (topNSql "documents" ["id", "content"]
            "WHERE e.embedding MATCH ? AND k = ? AND e.distance > ?")
          [LibsqlValue.blob [], LibsqlValue.integer 0, LibsqlValue.real 0]],
       none) := by
  rfl

/-- C4 (amended): neither `top_n` nor the where-clause builder validates
`sample_count`: for every request with `sample_count = 0` the embedding call
is performed first, the query is issued with `k` bound to 0, and no error —
in particular no `InvalidRequest` — is raised by this layer. -/
theorem c4_no_sample_validation (tableName : String) (columnNames : List String)
    (req : VectorSearchRequest) (queryVec : List Nat) (h : req.samples = 0) :
    ∃ sql ps,
      top_n_trace tableName columnNames req queryVec =
        ([QueryEffect.embedText req.query, QueryEffect.sqlQuery sql ps], none)
      ∧ ps.get? 1 = some (LibsqlValue.integer 0) := by
  obtain ⟨rest, hbw, _⟩ := build_where_clause_shape req queryVec
  refine ⟨topNSql tableName columnNames
      ("WHERE e.embedding MATCH ? AND k = ? AND " ++
        (match req.filter with
         | some f => "(e.distance > ?) AND (" ++ f.condition ++ ")"
         | none => "e.distance > ?")),
    LibsqlValue.blob (queryBlobOfVec queryVec) ::
      LibsqlValue.integer (Int.ofNat (req.samples % 2 ^ 32)) ::
      LibsqlValue.real (req.threshold.getD 0) :: rest, ?_, ?_⟩
  · simp [top_n_trace, hbw]
  · simp [h]

/-- C4 (witness): the amended claim evaluated at a concrete zero-sample
request. -/
theorem c4_no_sample_validation_witness :
    ∃ sql ps,
      top_n_trace "documents" ["id", "content"]
          { query := "q", samples := 0, threshold := none, filter := none } [] =
        ([QueryEffect.embedText "q", QueryEffect.sqlQuery sql ps], none)
      ∧ ps.get? 1 = some (LibsqlValue.integer 0) :=
  c4_no_sample_validation "documents" ["id", "content"]
    { query := "q", samples := 0, threshold := none, filter := none } [] rfl

/-! ## Claims C6, C9: result-row decoding -/

/-- A cursor row whose deserialization into the target record type fails —
the rows `top_n`'s loop skips with `continue`. -/
def rowSkipped {D : Type} (decode : List (String × String) → Option D)
    (columnNames : List String) (r : SqlRow) : Bool :=
  match decodeRow decode columnNames r with
  | .ok none => true
  | _ => false

theorem getColumnsFrom_isSome (cols : List String) :
    ∀ (names : List String) (i : Nat), i + names.length ≤ cols.length →
      ∃ m, getColumnsFrom cols i names = some m := by
  intro names
  induction names with
  | nil => exact fun i _ => ⟨[], rfl⟩
  | cons name rest ih =>
    intro i hle
    have hi : i < cols.length := by simp at hle; omega
    obtain ⟨v, hv⟩ : ∃ v, cols[i]? = some v := ⟨_, List.getElem?_eq_getElem hi⟩
    obtain ⟨m, hm⟩ := ih (i + 1) (by simp at hle ⊢; omega)
    exact ⟨(name, v) :: m, by simp [getColumnsFrom, hv, hm]⟩

/-- Under the arity guarantee of the SQL projection, decoding one row never
hits the fatal `get`-error path: it yields a result or a skip. -/
theorem decodeRow_ok {D : Type} (decode : List (String × String) → Option D)
    (columnNames : List String) (r : SqlRow)
    (hlen : columnNames.length ≤ r.cols.length) (hne : r.cols ≠ []) :
    ∃ o, decodeRow decode columnNames r = .ok o
      ∧ (o.isNone ↔ rowSkipped decode columnNames r = true) := by
  obtain ⟨m, hm⟩ := getColumnsFrom_isSome r.cols columnNames 0 (by simpa using hlen)
  obtain ⟨idValue, hid⟩ : ∃ v, r.cols[0]? = some v := by
    cases hc : r.cols with
    | nil => exact absurd hc hne
    | cons a tl => exact ⟨a, by simp [hc]⟩
  cases hdec : decode m with
  | some doc =>
    refine ⟨some (r.distance, idValue, doc), ?_, ?_⟩
    · simp [decodeRow, getColumns, hm, hid, hdec]
    · simp [rowSkipped, decodeRow, getColumns, hm, hid, hdec]
  | none =>
    refine ⟨none, ?_, ?_⟩
    · simp [decodeRow, getColumns, hm, hid, hdec]
    · simp [rowSkipped, decodeRow, getColumns, hm, hid, hdec]

/-- The cursor fold succeeds under the arity guarantee and returns one entry
per unskipped row. -/
theorem top_n_decode_length {D : Type} (decode : List (String × String) → Option D)
    (columnNames : List String) (rows : List SqlRow)
    (hwf : ∀ r ∈ rows, columnNames.length ≤ r.cols.length ∧ r.cols ≠ []) :
    ∃ out, top_n_decode decode columnNames rows = .ok out
      ∧ out.length = rows.length - (rows.filter (rowSkipped decode columnNames)).length := by
  induction rows with
  | nil => exact ⟨[], rfl, rfl⟩
  | cons r rest ih =>
    obtain ⟨hlen, hne⟩ := hwf r (List.mem_cons_self r rest)
    obtain ⟨out, hout, houtlen⟩ := ih (fun x hx => hwf x (List.mem_cons_of_mem r hx))
    obtain ⟨o, ho, hskip⟩ := decodeRow_ok decode columnNames r hlen hne
    have hles : (rest.filter (rowSkipped decode columnNames)).length ≤ rest.length :=
      List.length_filter_le _ _
    cases o with
    | some t =>
      have hsk : rowSkipped decode columnNames r = false := by
        cases hr : rowSkipped decode columnNames r with
        | false => rfl
        | true => simp [hr] at hskip
      refine ⟨t :: out, ?_, ?_⟩
      · simp [top_n_decode, ho, hout]
        rfl
      · simp [List.filter_cons, hsk, houtlen]
        omega
    | none =>
      have hsk : rowSkipped decode columnNames r = true := hskip.mp rfl
      refine ⟨out, ?_, ?_⟩
      · simp [top_n_decode, ho, hout]
        rfl
      · simp [List.filter_cons, hsk, houtlen]

/-- C6: over any cursor of `n` rows (each carrying the projected columns) of
which exactly one fails to deserialize into the target record type, `top_n`'s
decoding loop succeeds — no error — and returns exactly `n - 1` results: a
row failing deserialization is skipped, never fatal. -/
theorem c6_decode_failure_skipped {D : Type} (decode : List (String × String) → Option D)
    (columnNames : List String) (rows : List SqlRow)
    (hwf : ∀ r ∈ rows, columnNames.length ≤ r.cols.length ∧ r.cols ≠ [])
    (hone : (rows.filter (rowSkipped decode columnNames)).length = 1) :
    ∃ out, top_n_decode decode columnNames rows = .ok out
      ∧ out.length = rows.length - 1 := by
  obtain ⟨out, hout, hlen⟩ := top_n_decode_length decode columnNames rows hwf
  exact ⟨out, hout, by rw [hlen, hone]⟩

/-- C6 (witness): three concrete rows, the middle one undecodable, decode to
exactly two results. -/
theorem c6_decode_failure_skipped_witness :
    ∃ out, top_n_decode
        (fun m => if m.lookup "content" = some "bad" then none else some 7)
        ["id", "content"]
        [⟨["a", "x"], 0⟩, ⟨["b", "bad"], 1⟩, ⟨["c", "y"], 2⟩] = .ok out
      ∧ out.length = 3 - 1 :=
  c6_decode_failure_skipped
    (fun m => if m.lookup "content" = some "bad" then none else some 7)
    ["id", "content"]
    [⟨["a", "x"], 0⟩, ⟨["b", "bad"], 1⟩, ⟨["c", "y"], 2⟩]
    (by intro r hr; fin_cases hr <;> exact ⟨by decide, by decide⟩)
    (by decide)

/-- C9: every decoded result reports as its id the string value at column
index 0 of the projection — the first column in `T::schema()`'s declared
order — and whenever the column actually named `id` sits at a different
index `j` holding a different value than column 0, the reported id differs
from it. -/
theorem c9_id_from_first_column {D : Type} (decode : List (String × String) → Option D)
    (columnNames : List String) (r : SqlRow) (dist : ℚ) (idValue : String) (doc : D)
    (h : decodeRow decode columnNames r = .ok (some (dist, idValue, doc))) :
    r.cols.get? 0 = some idValue
    ∧ ∀ j, columnNames.get? j = some "id" → ¬ r.cols.get? j = r.cols.get? 0 →
        ¬ r.cols.get? j = some idValue := by
  cases hm : getColumns columnNames r.cols with
  | none =>
    unfold decodeRow at h
    rw [hm] at h
    exact Except.noConfusion h
  | some m =>
    cases hid : r.cols[0]? with
    | none =>
      have hrw : decodeRow decode columnNames r = .error "DatastoreError" := by
        simp [decodeRow, hm, hid]
      rw [hrw] at h
      exact Except.noConfusion h
    | some v =>
      cases hdec : decode m with
      | none =>
        have hrw : decodeRow decode columnNames r = .ok none := by
          simp [decodeRow, hm, hid, hdec]
        rw [hrw] at h
        simp at h
      | some doc2 =>
        have hrw : decodeRow decode columnNames r = .ok (some (r.distance, v, doc2)) := by
          simp [decodeRow, hm, hid, hdec]
        rw [hrw] at h
        have h2 := Except.ok.inj h
        simp at h2
        obtain ⟨-, h3, -⟩ := h2
        refine ⟨by simp [hid, h3], fun j hj hne hcontra => hne ?_⟩
        rw [hcontra]
        simp [hid, h3]

/-- C9 (witness): with schema order `content, id`, the reported id is the
`content` value, not the value of the column named `id`. -/
theorem c9_id_from_first_column_witness :
    ¬ (SqlRow.mk ["hello", "doc1"] 0).cols.get? 1 = some "hello" := by
  have h := c9_id_from_first_column (D := Nat) (fun _ => some 0)
    ["content", "id"] ⟨["hello", "doc1"], 0⟩ 0 "hello" 0 (by rfl)
  exact h.2 1 (by rfl) (by decide)

/-! ## Claims C1, C8: ingestion atomicity and upsert identity -/

/-- C1: evaluated at a two-document batch whose second `INSERT` fails, the
store afterwards does NOT hold exactly the rows it held before the call:
`add_rows` returns the error with the transaction still open (no `ROLLBACK`
on any path), its working copy holding the first document's row and
embedding row — visible to every statement on the store's own connection —
instead of being rolled back to the pre-call (empty) contents. -/
theorem c1_add_rows_no_rollback :
    add_rows true (fun i => i == 1)
        [⟨"d0", [("id", "d0"), ("content", "c0")], [[1, 2, 3, 4]]⟩,
         ⟨"d1", [("id", "d1"), ("content", "c1")], [[5, 6, 7, 8]]⟩]
        ⟨⟨[], []⟩, none, 0⟩ =
      (⟨⟨[], []⟩,
        some ⟨[[("id", "d0"), ("content", "c0")]], [(1, [1, 2, 3, 4])]⟩, 1⟩,
       .error "DatastoreError")
    ∧ (DBState.mk ⟨[], []⟩
        (some ⟨[[("id", "d0"), ("content", "c0")]], [(1, [1, 2, 3, 4])]⟩) 1).visible
        ≠ (DBState.mk ⟨[], []⟩ none 0).visible := by
  exact ⟨rfl, by decide⟩

theorem fold_insertEmbRow (rowid : Int) :
    ∀ (blobs : List (List Nat)) (s : DBState) (t : TableData), s.txn = some t →
      blobs.foldl (fun acc blob => insertEmbRow acc rowid blob) s
        = { s with txn := some ⟨t.docRows, t.embRows ++ blobs.map (fun b => (rowid, b))⟩ } := by
  intro blobs
  induction blobs with
  | nil =>
    intro s t h
    cases s with
    | mk committed txn lastRowid =>
      simp at h
      simp [h]
  | cons b bs ih =>
    intro s t h
    have hstep : insertEmbRow s rowid b
        = { s with txn := some ⟨t.docRows, t.embRows ++ [(rowid, b)]⟩ } := by
      simp [insertEmbRow, DBState.visible, DBState.withWorking, h]
    rw [List.foldl_cons, hstep,
      ih { s with txn := some ⟨t.docRows, t.embRows ++ [(rowid, b)]⟩ }
        ⟨t.docRows, t.embRows ++ [(rowid, b)]⟩ rfl]
    simp

/-- Closed form of a successful single-document `add_rows` call. -/
theorem add_rows_single (u : Bool) (d : IngestDoc) (s0 : DBState) (h : s0.txn = none) :
    add_rows u (fun _ => false) [d] s0 =
      ({ committed :=
          ⟨upsertRows u s0.committed.docRows d.columnValues,
            s0.committed.embRows ++ d.embBlobs.map (fun b => (s0.lastRowid + 1, b))⟩,
         txn := none, lastRowid := s0.lastRowid + 1 },
       .ok (s0.lastRowid + 1)) := by
  obtain ⟨⟨dr, er⟩, txn0, lr⟩ := s0
  simp at h
  subst h
  have hupsert : insertOrReplaceDoc u ⟨⟨dr, er⟩, some ⟨dr, er⟩, lr⟩ d.columnValues
      = ⟨⟨dr, er⟩, some ⟨upsertRows u dr d.columnValues, er⟩, lr + 1⟩ := by
    simp [insertOrReplaceDoc, DBState.visible, DBState.withWorking]
  have hfold := fold_insertEmbRow (lr + 1) d.embBlobs
    ⟨⟨dr, er⟩, some ⟨upsertRows u dr d.columnValues, er⟩, lr + 1⟩
    ⟨upsertRows u dr d.columnValues, er⟩ rfl
  simp [add_rows, beginTxn, add_rows_loop, hupsert, hfold, commitTxn]

theorem rowsWithId_upsert_unique (x : String) (rows : List DocRow) (r : DocRow)
    (hr : rowIdValue r = some x) :
    rowsWithId x (upsertRows true rows r) = [r] := by
  unfold upsertRows rowsWithId
  rw [if_pos rfl, List.filter_append, List.filter_filter]
  have hall : ∀ a : DocRow,
      ((rowIdValue a == some x) && !(rowIdValue a == rowIdValue r)) = false := by
    intro a
    rw [hr]
    cases hcmp : rowIdValue a == some x <;> simp [hcmp]
  simp [hall, hr]

/-- C8 (counterexample): for a record type whose schema does not declare the
`id` column with a uniqueness constraint (`id TEXT` instead of
`id TEXT PRIMARY KEY`), ingesting a record with id `X` and then a different
record with the same id leaves TWO rows for `X`, refuting the claim for
every record type. -/
theorem c8_duplicate_rows_without_unique_id :
    schemaHasUniqueId [⟨"id", "TEXT", false⟩, ⟨"content", "TEXT", false⟩] = false
    ∧ (rowsWithId "X"
        ((add_rows (schemaHasUniqueId [⟨"id", "TEXT", false⟩, ⟨"content", "TEXT", false⟩])
            (fun _ => false) [⟨"X", [("id", "X"), ("content", "c2")], []⟩]
            ((add_rows (schemaHasUniqueId [⟨"id", "TEXT", false⟩, ⟨"content", "TEXT", false⟩])
                (fun _ => false) [⟨"X", [("id", "X"), ("content", "c1")], []⟩]
                ⟨⟨[], []⟩, none, 0⟩).1)).1.visible.docRows)).length = 2 := by
  decide

/-- C8 (amended): for every record type whose schema declares the `id`
column with a uniqueness constraint (as every record type in the repository
does, via `TEXT PRIMARY KEY`), and every id string `X`: ingesting a record
with id `X` and then ingesting a different record value also with id `X`
leaves exactly one row for `X` in the document table, holding the second
record's column values. -/
theorem c8_upsert_identity (schema : List Column) (hu : schemaHasUniqueId schema = true)
    (d1 d2 : IngestDoc) (x : String)
    (_h1 : rowIdValue d1.columnValues = some x) (h2 : rowIdValue d2.columnValues = some x)
    (s0 : DBState) (h0 : s0.txn = none) :
    rowsWithId x
        ((add_rows (schemaHasUniqueId schema) (fun _ => false) [d2]
          ((add_rows (schemaHasUniqueId schema) (fun _ => false) [d1] s0).1)).1.visible.docRows)
      = [d2.columnValues]
    ∧ (add_rows (schemaHasUniqueId schema) (fun _ => false) [d2]
          ((add_rows (schemaHasUniqueId schema) (fun _ => false) [d1] s0).1)).1.txn = none := by
  rw [add_rows_single (schemaHasUniqueId schema) d1 s0 h0]
  rw [add_rows_single (schemaHasUniqueId schema) d2 _ rfl]
  rw [hu]
  exact ⟨rowsWithId_upsert_unique x _ d2.columnValues h2, rfl⟩

/-- C8 (witness): the amended claim evaluated on the repository's own
schema (`id TEXT PRIMARY KEY, content TEXT`) and two concrete records with
id `X`. -/
theorem c8_upsert_identity_witness :
    rowsWithId "X"
        ((add_rows (schemaHasUniqueId [⟨"id", "TEXT PRIMARY KEY", false⟩, ⟨"content", "TEXT", false⟩])
            (fun _ => false) [⟨"X", [("id", "X"), ("content", "c2")], []⟩]
            ((add_rows (schemaHasUniqueId [⟨"id", "TEXT PRIMARY KEY", false⟩, ⟨"content", "TEXT", false⟩])
                (fun _ => false) [⟨"X", [("id", "X"), ("content", "c1")], []⟩]
                ⟨⟨[], []⟩, none, 0⟩).1)).1.visible.docRows)
      = [[("id", "X"), ("content", "c2")]] :=
  (c8_upsert_identity [⟨"id", "TEXT PRIMARY KEY", false⟩, ⟨"content", "TEXT", false⟩]
    (by decide)
    ⟨"X", [("id", "X"), ("content", "c1")], []⟩
    ⟨"X", [("id", "X"), ("content", "c2")], []⟩
    "X" (by decide) (by decide) ⟨⟨[], []⟩, none, 0⟩ rfl).1

/-! ## Claim C10: 32-bit narrowing and vector blob layout -/

theorem length_flatMap_leBytes4 (l : List Nat) :
    (l.flatMap leBytes4).length = 4 * l.length := by
  induction l with
  | nil => rfl
  | cons w ws ih => simp [List.flatMap_cons, leBytes4, ih]; omega

/-- C10: for every narrowing function (in particular IEEE `f64 → f32`) and
every embedding, both the ingestion path and the query path serialize the
same component-wise-narrowed 32-bit vector; every stored component fits in
32 bits, the blob is exactly 4 little-endian bytes per component (length
`4·n`), and the blob depends only on the narrowed vector — any precision
beyond the 32-bit components is lost. -/
theorem c10_vector_serialization {α : Type} (narrow : α → Nat) (e : Embedding α) :
    (serialize_embedding narrow e).length = e.vec.length
    ∧ (∀ w ∈ serialize_embedding narrow e, w < 2 ^ 32)
    ∧ (ingestBlob narrow e).length = 4 * e.vec.length
    ∧ queryBlobOfVec (serialize_embedding narrow e) = ingestBlob narrow e
    ∧ (∀ b ∈ ingestBlob narrow e, b < 256)
    ∧ ∀ e2 : Embedding α, serialize_embedding narrow e = serialize_embedding narrow e2 →
        ingestBlob narrow e = ingestBlob narrow e2 := by
  refine ⟨by simp [serialize_embedding], ?_, ?_, rfl, ?_, ?_⟩
  · intro w hw
    simp [serialize_embedding] at hw
    obtain ⟨x, -, hx⟩ := hw
    omega
  · rw [ingestBlob, length_flatMap_leBytes4]
    simp [serialize_embedding]
  · intro b hb
    simp [ingestBlob, List.mem_flatMap, leBytes4] at hb
    obtain ⟨w, -, hw⟩ := hb
    omega
  · intro e2 hvec
    simp [ingestBlob, hvec]

/-- C10 (witness): the serialization facts evaluated at a concrete
narrowing function and embedding. -/
theorem c10_vector_serialization_witness :
    (ingestBlob (fun n : Nat => n) ⟨"doc", [1, 2]⟩).length = 4 * 2
    ∧ queryBlobOfVec (serialize_embedding (fun n : Nat => n) ⟨"doc", [1, 2]⟩)
        = ingestBlob (fun n : Nat => n) ⟨"doc", [1, 2]⟩ := by
  have h := c10_vector_serialization (fun n : Nat => n) ⟨"doc", [1, 2]⟩
  exact ⟨h.2.2.1, h.2.2.2.1⟩

end RigLibsql
